import Mathlib

/-!
Verification of the performance-adaptive animation layer of the portfolio
repository.  The JavaScript classes `PerformanceMonitor`, `AnimationManager`
and `ParticleSystem` are shallowly embedded: JS numbers become ℚ (or ℝ where
a square root occurs), JS strings stay `String`, object state becomes a Lean
structure passed explicitly, and `performance.now()` is modeled by passing the
current time of each event as a parameter.
-/

namespace Portfolio

/-- Settings record stored in the `qualityLevels` object of
`PerformanceMonitor` and returned by `getQualitySettings`. -/
structure QualitySettings where
  particles : Nat
  shadows : Bool
  antialias : Bool
deriving DecidableEq

/-- Mutable fields of a `PerformanceMonitor` instance that the quality logic
reads or writes.  `firstFrameTime = none` models the JS `null`. -/
structure PMState where
  currentQuality : String
  deviceType : String
  webGLSupported : Bool
  reducedMotionPreferred : Bool
  fpsHistory : List ℚ
  performanceWarningCount : Nat
  lastQualityAdjustment : ℚ
  frameCount : Nat
  lastTime : ℚ
  currentFPS : ℚ
  firstFrameTime : Option ℚ
deriving DecidableEq

/-- Does the pattern occur as a contiguous subsequence of the character list
(the semantics of a fixed-word regular-expression literal)? -/
def containsSeq (pat : List Char) : List Char → Bool
  | [] => pat.isEmpty
  | c :: rest => pat.isPrefixOf (c :: rest) || containsSeq pat rest

/-- Alternatives of the regex
`/android|webos|iphone|ipad|ipod|blackberry|iemobile|opera mini/`. -/
def mobileAgentPatterns : List (List Char) :=
  ["android".toList, "webos".toList, "iphone".toList, "ipad".toList,
   "ipod".toList, "blackberry".toList, "iemobile".toList, "opera mini".toList]

/-- Test of the mobile user-agent regex against a lower-cased agent string. -/
def mobileRegexTest (ua : List Char) : Bool :=
  mobileAgentPatterns.any (fun p => containsSeq p ua)

/-- Test of `android(?!.*mobile)`: some occurrence of `android` is not
followed, anywhere later in the string, by `mobile`.  After matching the
seven characters of `android` starting at `c`, the rest is `rest.drop 6`. -/
def androidNoMobileAfter : List Char → Bool
  | [] => false
  | c :: rest =>
      (("android".toList).isPrefixOf (c :: rest)
        && !(containsSeq "mobile".toList (rest.drop 6)))
      || androidNoMobileAfter rest

/-- Test of the tablet regex `/ipad|android(?!.*mobile)/`. -/
def tabletRegexTest (ua : List Char) : Bool :=
  containsSeq "ipad".toList ua || androidNoMobileAfter ua

/-- JS `toLowerCase` on an agent string (ASCII case mapping). -/
def jsToLower (s : String) : List Char := s.toList.map Char.toLower

namespace PerformanceMonitor

/-- `PerformanceMonitor.detectDeviceType`, a function of the user-agent
string and of `window.innerWidth`. -/
def detectDeviceType (userAgent : String) (innerWidth : ℚ) : String :=
  let ua := jsToLower userAgent
  let isMobile := mobileRegexTest ua
  let isTablet := tabletRegexTest ua
      || (decide (768 ≤ innerWidth) && decide (innerWidth ≤ 1024))
  if isMobile && !isTablet then "mobile"
  else if isTablet then "tablet"
  else "desktop"

/-- Default option `targetFPS: { desktop: 60, tablet: 45, mobile: 30 }`;
the catch-all branch models the `undefined` of a JS lookup at a key that the
object does not carry and is never reached from a detected device type. -/
def targetFPSFor (deviceType : String) : ℚ :=
  if deviceType = "desktop" then 60
  else if deviceType = "tablet" then 45
  else if deviceType = "mobile" then 30
  else 0

/-- Default option `performanceThreshold: 0.8`. -/
def performanceThreshold : ℚ := 8 / 10

/-- Default option `qualityAdjustmentDelay: 2000` (milliseconds). -/
def qualityAdjustmentDelay : ℚ := 2000

/-- Field `maxHistoryLength = 60`. -/
def maxHistoryLength : Nat := 60

/-- Property names that every plain JS object literal inherits from
`Object.prototype`; each is bound to a function or an object and is
therefore truthy under a `[key]` lookup. -/
def objectPrototypeProps : List String :=
  ["constructor", "hasOwnProperty", "isPrototypeOf", "propertyIsEnumerable",
   "toLocaleString", "toString", "valueOf", "__defineGetter__",
   "__defineSetter__", "__lookupGetter__", "__lookupSetter__", "__proto__"]

/-- Value of a JS property lookup `obj[key]`: either an own data property or
a truthy member inherited from `Object.prototype`. -/
inductive JSProp where
  | settings (v : QualitySettings)
  | inherited
deriving DecidableEq

/-- Lookup `this.qualityLevels[key]` on the object literal whose own keys
are high (2000, shadows, antialias), medium (1000, no shadows, antialias)
and low (500, neither), including the properties reachable through the
prototype chain; `none` models the falsy `undefined`. -/
def qualityLevels (key : String) : Option JSProp :=
  if key = "high" then some (.settings ⟨2000, true, true⟩)
  else if key = "medium" then some (.settings ⟨1000, false, true⟩)
  else if key = "low" then some (.settings ⟨500, false, false⟩)
  else if key ∈ objectPrototypeProps then some .inherited
  else none

/-- `setInitialQuality`: disable without WebGL or under a reduced-motion
preference, otherwise pick the tier of the detected device (the switch
treats `desktop` and its default case alike). -/
def setInitialQuality (s : PMState) : PMState :=
  if s.webGLSupported = false then { s with currentQuality := "disabled" }
  else if s.reducedMotionPreferred = true then { s with currentQuality := "disabled" }
  else if s.deviceType = "mobile" then { s with currentQuality := "low" }
  else if s.deviceType = "tablet" then { s with currentQuality := "medium" }
  else { s with currentQuality := "high" }

/-- JS `Array.prototype.indexOf`, which returns `-1` when absent. -/
def jsIndexOf (l : List String) (a : String) : Int :=
  if a ∈ l then (l.indexOf a : Int) else -1

/-- The array `qualityOrder` of `reduceQuality`. -/
def qualityOrder : List String := ["high", "medium", "low"]

/-- `reduceQuality`: step to the next entry of `qualityOrder` when the
current index is below the last position (an index of `-1`, as JS
`indexOf` yields for a string outside the array, passes the guard and
steps to position 0). -/
def reduceQuality (s : PMState) : PMState :=
  let currentIndex := jsIndexOf qualityOrder s.currentQuality
  if currentIndex < (qualityOrder.length : Int) - 1 then
    { s with currentQuality := qualityOrder.getD (currentIndex + 1).toNat s.currentQuality }
  else s

/-- Local `recentFPS = this.fpsHistory.slice(-5)` of
`checkPerformanceThreshold`. -/
def recentFPSOf (s : PMState) : List ℚ :=
  s.fpsHistory.drop (s.fpsHistory.length - 5)

/-- Local `averageFPS` of `checkPerformanceThreshold`: arithmetic mean of
the last five FPS samples. -/
def averageFPSOf (s : PMState) : ℚ :=
  (recentFPSOf s).sum / ((recentFPSOf s).length : ℚ)

/-- Local `threshold = targetFPS * performanceThreshold` of
`checkPerformanceThreshold`. -/
def thresholdOf (s : PMState) : ℚ :=
  targetFPSFor s.deviceType * performanceThreshold

/-- `checkPerformanceThreshold`, with `now` for the `performance.now()`
reading: return unchanged when already at `low` or `disabled`, when inside
the two second cool-down after the last adjustment, or with fewer than five
FPS samples; otherwise count a warning when the five sample average is
below the threshold and downgrade on the third consecutive warning. -/
def checkPerformanceThreshold (now : ℚ) (s : PMState) : PMState :=
  if s.currentQuality = "disabled" ∨ s.currentQuality = "low" then s
  else if now - s.lastQualityAdjustment < qualityAdjustmentDelay then s
  else if 5 ≤ s.fpsHistory.length then
    if averageFPSOf s < thresholdOf s then
      if 3 ≤ s.performanceWarningCount + 1 then
        let s2 := reduceQuality { s with performanceWarningCount := s.performanceWarningCount + 1 }
        { s2 with performanceWarningCount := 0, lastQualityAdjustment := now }
      else { s with performanceWarningCount := s.performanceWarningCount + 1 }
    else { s with performanceWarningCount := 0 }
  else s

/-- JS `Math.round` (half away from zero toward positive infinity). -/
def jsRound (q : ℚ) : Int := ⌊q + 1 / 2⌋

/-- `updateMetrics`, with `now` for the `performance.now()` reading: record
the first frame time, count the frame, and once a second of wall time has
passed push the measured FPS onto the bounded history and run the
threshold check. -/
def updateMetrics (now : ℚ) (s : PMState) : PMState :=
  let s := if s.firstFrameTime = none then { s with firstFrameTime := some now } else s
  let s := { s with frameCount := s.frameCount + 1 }
  let timeDelta := now - s.lastTime
  if 1000 ≤ timeDelta then
    let fps : ℚ := (jsRound ((s.frameCount : ℚ) * 1000 / timeDelta) : ℚ)
    let hist := s.fpsHistory ++ [fps]
    let hist := if maxHistoryLength < hist.length then hist.tail else hist
    checkPerformanceThreshold now
      { s with currentFPS := fps, frameCount := 0, lastTime := now, fpsHistory := hist }
  else s

/-- `onReducedMotionChange`: store the new media-query flag, then either
disable immediately or recompute the initial tier. -/
def onReducedMotionChange (eventMatches : Bool) (s : PMState) : PMState :=
  let s := { s with reducedMotionPreferred := eventMatches }
  if s.reducedMotionPreferred then { s with currentQuality := "disabled" }
  else setInitialQuality s

/-- `setQuality`: accept the argument when it is the literal `disabled` or
when the lookup `this.qualityLevels[quality]` is truthy. -/
def setQuality (quality : String) (s : PMState) : PMState :=
  if quality = "disabled" || (qualityLevels quality).isSome then
    { s with currentQuality := quality }
  else s

/-- `getQualitySettings`: zero settings when disabled, else the looked-up
tier settings with `qualityLevels.low` as the falsy-lookup fallback; `none`
models the case of a non-settings value inherited from the prototype. -/
def getQualitySettings (s : PMState) : Option QualitySettings :=
  if s.currentQuality = "disabled" then some ⟨0, false, false⟩
  else
    match qualityLevels s.currentQuality with
    | some (.settings v) => some v
    | some .inherited => none
    | none => some ⟨500, false, false⟩

/-- The constructor of `PerformanceMonitor`, given the environment readings
(user agent, viewport width, WebGL probe result, reduced-motion media query)
and the construction-time clock reading. -/
def init (userAgent : String) (innerWidth : ℚ)
    (webGLSupported reducedMotionPreferred : Bool) (now : ℚ) : PMState :=
  setInitialQuality
    { currentQuality := "high"
      deviceType := detectDeviceType userAgent innerWidth
      webGLSupported := webGLSupported
      reducedMotionPreferred := reducedMotionPreferred
      fpsHistory := []
      performanceWarningCount := 0
      lastQualityAdjustment := 0
      frameCount := 0
      lastTime := now
      currentFPS := 60
      firstFrameTime := none }

/-- Vocabulary of quality tiers named by the spec. -/
def validQuality (q : String) : Prop :=
  q = "high" ∨ q = "medium" ∨ q = "low" ∨ q = "disabled"

/-- Rank of a tier in the order high > medium > low > disabled, used to
state monotonicity of automatic adjustments. -/
def qualityRank (q : String) : Nat :=
  if q = "high" then 3
  else if q = "medium" then 2
  else if q = "low" then 1
  else 0

/-- The tier one step below in the downgrade order high, medium, low. -/
def nextLowerQuality (q : String) : String :=
  if q = "high" then "medium" else if q = "medium" then "low" else q

/-- Events a `PerformanceMonitor` receives during a session, each frame or
per-second callback tagged with its clock reading. -/
inductive PMEvent where
  | update (now : ℚ)
  | check (now : ℚ)
  | motion (eventMatches : Bool)
deriving DecidableEq

/-- Dispatch of one session event to the corresponding method. -/
def PMStep : PMEvent → PMState → PMState
  | .update now, s => updateMetrics now s
  | .check now, s => checkPerformanceThreshold now s
  | .motion m, s => onReducedMotionChange m s

/-- Left fold of a list of session events over the monitor state. -/
def runEvents : List PMEvent → PMState → PMState
  | [], s => s
  | e :: es, s => runEvents es (PMStep e s)

end PerformanceMonitor

namespace AnimationManager

/-- `AnimationManager.detectDeviceType`, textually the same computation as
the one in `PerformanceMonitor`. -/
def detectDeviceType (userAgent : String) (innerWidth : ℚ) : String :=
  let ua := jsToLower userAgent
  let isMobile := mobileRegexTest ua
  let isTablet := tabletRegexTest ua
      || (decide (768 ≤ innerWidth) && decide (innerWidth ≤ 1024))
  if isMobile && !isTablet then "mobile"
  else if isTablet then "tablet"
  else "desktop"

/-- The two flags of an `AnimationManager` instance that `start` reads and
writes. -/
structure AMState where
  isInitialized : Bool
  isRunning : Bool
deriving DecidableEq

/-- `AnimationManager.start`: refuse before a successful `init`, report
success without any change while already running, otherwise set the running
flag and enter the frame loop (which touches neither flag). -/
def start (s : AMState) : Bool × AMState :=
  if s.isInitialized = false then (false, s)
  else if s.isRunning = true then (true, s)
  else (true, { s with isRunning := true })

end AnimationManager

namespace ParticleSystem

/-- Boundary wrapping of one coordinate, two sequential conditionals
`if (v > hi) v = lo; if (v < lo) v = hi;` acting on a finite value (after
the first branch assigns `lo`, the second test reads the new value and
fails). -/
def wrapRel (lo hi x out : ℝ) : Prop :=
  (hi < x ∧ out = lo) ∨ (x < lo ∧ ¬ hi < x ∧ out = hi) ∨
  (lo ≤ x ∧ x ≤ hi ∧ out = x)

/-- One iteration of the loop body of `ParticleSystem.update` for a single
particle: floating movement by the velocity, mouse repulsion when the
Euclidean distance to the scaled mouse point is below 3, then boundary
wrapping.  JS float arithmetic is modeled over ℝ; the degenerate division
`0/0` that JS turns into a NaN assignment is modeled by the outcome
`none`. -/
def particleStepRel (mouseInfluence mousePosX mousePosY : ℝ)
    (px py pz vx vy vz : ℝ) (out : Option (ℝ × ℝ × ℝ)) : Prop :=
  let x1 := px + vx
  let y1 := py + vy
  let z1 := pz + vz
  let mouseX := mousePosX * 10
  let mouseY := mousePosY * 10
  let dx := x1 - mouseX
  let dy := y1 - mouseY
  let distance := Real.sqrt (dx * dx + dy * dy)
  (distance < 3 ∧ distance = 0 ∧ out = none) ∨
  (distance < 3 ∧ distance ≠ 0 ∧
    ∃ x3 y3 z3,
      wrapRel (-10) 10 (x1 + dx / distance * ((3 - distance) * mouseInfluence)) x3 ∧
      wrapRel (-10) 10 (y1 + dy / distance * ((3 - distance) * mouseInfluence)) y3 ∧
      wrapRel (-5) 5 z1 z3 ∧
      out = some (x3, y3, z3)) ∨
  (¬ distance < 3 ∧
    ∃ x3 y3 z3,
      wrapRel (-10) 10 x1 x3 ∧ wrapRel (-10) 10 y1 y3 ∧ wrapRel (-5) 5 z1 z3 ∧
      out = some (x3, y3, z3))

/-- States that `createParticleData` can produce for one particle before any
mouse event: each coordinate and velocity comes from a fresh
`Math.random()` draw in `[0, 1)`, and `mousePosition` still carries its
constructor value `(0, 0)`.  `speedMax` is the `speed.max` entry of the
device configuration. -/
def particleInitState (speedMax px py pz vx vy vz mx my : ℝ) : Prop :=
  (∃ r1 r2 r3 r4 r5 r6 : ℝ,
    0 ≤ r1 ∧ r1 < 1 ∧ 0 ≤ r2 ∧ r2 < 1 ∧ 0 ≤ r3 ∧ r3 < 1 ∧
    0 ≤ r4 ∧ r4 < 1 ∧ 0 ≤ r5 ∧ r5 < 1 ∧ 0 ≤ r6 ∧ r6 < 1 ∧
    px = (r1 - 1 / 2) * 20 ∧ py = (r2 - 1 / 2) * 20 ∧ pz = (r3 - 1 / 2) * 10 ∧
    vx = (r4 - 1 / 2) * speedMax ∧ vy = (r5 - 1 / 2) * speedMax ∧
    vz = (r6 - 1 / 2) * speedMax) ∧
  mx = 0 ∧ my = 0

end ParticleSystem

namespace PerformanceMonitor

theorem setInitialQuality_valid (s : PMState) :
    validQuality (setInitialQuality s).currentQuality := by
  unfold setInitialQuality validQuality
  split_ifs <;> simp

theorem setInitialQuality_fields (s : PMState) :
    (setInitialQuality s).webGLSupported = s.webGLSupported ∧
    (setInitialQuality s).reducedMotionPreferred = s.reducedMotionPreferred ∧
    (setInitialQuality s).deviceType = s.deviceType := by
  unfold setInitialQuality
  split_ifs <;> exact ⟨rfl, rfl, rfl⟩

theorem reduceQuality_eval (s : PMState) :
    reduceQuality s =
      if s.currentQuality = "high" then { s with currentQuality := "medium" }
      else if s.currentQuality = "medium" then { s with currentQuality := "low" }
      else if s.currentQuality = "low" then s
      else { s with currentQuality := "high" } := by
  unfold reduceQuality jsIndexOf qualityOrder
  split_ifs with h1 h2 h3 <;>
    simp_all [List.indexOf_cons, List.getD]

end PerformanceMonitor

namespace PerformanceMonitor

theorem check_disabled (now : ℚ) (s : PMState) (h : s.currentQuality = "disabled") :
    checkPerformanceThreshold now s = s := by
  unfold checkPerformanceThreshold
  rw [if_pos (Or.inl h)]

theorem check_eval (now : ℚ) (s : PMState)
    (hguard : ¬(s.currentQuality = "disabled" ∨ s.currentQuality = "low")) :
    checkPerformanceThreshold now s =
      if now - s.lastQualityAdjustment < qualityAdjustmentDelay then s
      else if 5 ≤ s.fpsHistory.length then
        if averageFPSOf s < thresholdOf s then
          if 3 ≤ s.performanceWarningCount + 1 then
            { reduceQuality { s with performanceWarningCount := s.performanceWarningCount + 1 } with
                performanceWarningCount := 0, lastQualityAdjustment := now }
          else { s with performanceWarningCount := s.performanceWarningCount + 1 }
        else { s with performanceWarningCount := 0 }
      else s := by
  unfold checkPerformanceThreshold
  rw [if_neg hguard]

theorem check_incr (now : ℚ) (s : PMState)
    (hguard : ¬(s.currentQuality = "disabled" ∨ s.currentQuality = "low"))
    (hA : qualityAdjustmentDelay ≤ now - s.lastQualityAdjustment)
    (hB : 5 ≤ s.fpsHistory.length)
    (hC : averageFPSOf s < thresholdOf s)
    (hD : s.performanceWarningCount + 1 < 3) :
    checkPerformanceThreshold now s =
      { s with performanceWarningCount := s.performanceWarningCount + 1 } := by
  rw [check_eval now s hguard, if_neg (not_lt.mpr hA), if_pos hB, if_pos hC,
    if_neg (by omega)]

theorem check_fire (now : ℚ) (s : PMState)
    (hguard : ¬(s.currentQuality = "disabled" ∨ s.currentQuality = "low"))
    (hA : qualityAdjustmentDelay ≤ now - s.lastQualityAdjustment)
    (hB : 5 ≤ s.fpsHistory.length)
    (hC : averageFPSOf s < thresholdOf s)
    (hD : 3 ≤ s.performanceWarningCount + 1) :
    checkPerformanceThreshold now s =
      { reduceQuality { s with performanceWarningCount := s.performanceWarningCount + 1 } with
          performanceWarningCount := 0, lastQualityAdjustment := now } := by
  rw [check_eval now s hguard, if_neg (not_lt.mpr hA), if_pos hB, if_pos hC, if_pos hD]

theorem check_quality_valid_mono (now : ℚ) (s : PMState)
    (hv : validQuality s.currentQuality) :
    validQuality (checkPerformanceThreshold now s).currentQuality ∧
    qualityRank (checkPerformanceThreshold now s).currentQuality ≤
      qualityRank s.currentQuality := by
  unfold checkPerformanceThreshold
  split_ifs with h1 h2 h3 h4 h5
  · exact ⟨hv, le_refl _⟩
  · exact ⟨hv, le_refl _⟩
  · rcases hv with h | h | h | h
    · simp [reduceQuality_eval, h, qualityRank, validQuality]
    · simp [reduceQuality_eval, h, qualityRank, validQuality]
    · exact absurd (Or.inr h) h1
    · exact absurd (Or.inl h) h1
  · exact ⟨hv, le_refl _⟩
  · exact ⟨hv, le_refl _⟩
  · exact ⟨hv, le_refl _⟩

theorem updateMetrics_quality_valid_mono (now : ℚ) (s : PMState)
    (hv : validQuality s.currentQuality) :
    validQuality (updateMetrics now s).currentQuality ∧
    qualityRank (updateMetrics now s).currentQuality ≤
      qualityRank s.currentQuality := by
  unfold updateMetrics
  dsimp only
  split_ifs with h1 h2 h3 <;>
    first
      | exact ⟨hv, le_refl _⟩
      | exact check_quality_valid_mono _ _ hv

theorem PMStep_valid_mono (e : PMEvent) (s : PMState)
    (hv : validQuality s.currentQuality) (hm : e ≠ .motion false) :
    validQuality (PMStep e s).currentQuality ∧
    qualityRank (PMStep e s).currentQuality ≤ qualityRank s.currentQuality := by
  cases e with
  | update now => exact updateMetrics_quality_valid_mono now s hv
  | check now => exact check_quality_valid_mono now s hv
  | motion m =>
      cases m
      · exact absurd rfl hm
      · refine ⟨?_, ?_⟩
        · simp [PMStep, onReducedMotionChange, validQuality]
        · have : (PMStep (.motion true) s).currentQuality = "disabled" := by
            simp [PMStep, onReducedMotionChange]
          rw [this]
          exact Nat.zero_le _

end PerformanceMonitor

/-- C7: device classification is a total function of the user-agent string
and the viewport width into the three classes desktop, tablet and mobile,
and the copies of `detectDeviceType` in `AnimationManager` and in
`PerformanceMonitor` compute the same function. -/
theorem C7_detectDeviceType_total_and_shared (ua : String) (w : ℚ) :
    (AnimationManager.detectDeviceType ua w = "desktop" ∨
      AnimationManager.detectDeviceType ua w = "tablet" ∨
      AnimationManager.detectDeviceType ua w = "mobile") ∧
    AnimationManager.detectDeviceType ua w = PerformanceMonitor.detectDeviceType ua w := by
  refine ⟨?_, rfl⟩
  simp only [AnimationManager.detectDeviceType]
  split_ifs <;> simp

/-- C10: `AnimationManager.start` returns false and leaves the manager
stopped when `init` has not succeeded, and on a running manager it returns
true and changes nothing, so a second call gives back the same answer and
state. -/
theorem C10_start_guard_and_idempotent (s : AnimationManager.AMState) :
    (s.isInitialized = false → AnimationManager.start s = (false, s)) ∧
    (s.isInitialized = false → s.isRunning = false →
      ((AnimationManager.start s).1 = false ∧
        (AnimationManager.start s).2.isRunning = false)) ∧
    (s.isInitialized = true → s.isRunning = true →
      (AnimationManager.start s = (true, s) ∧
        AnimationManager.start (AnimationManager.start s).2 = AnimationManager.start s)) := by
  rcases s with ⟨i, r⟩
  cases i <;> cases r <;> simp [AnimationManager.start]

/-- Witness for C10 at the two concrete flag states. -/
theorem C10_start_guard_and_idempotent_witness :
    AnimationManager.start ⟨false, false⟩ = (false, ⟨false, false⟩) ∧
    AnimationManager.start ⟨true, true⟩ = (true, ⟨true, true⟩) :=
  ⟨(C10_start_guard_and_idempotent ⟨false, false⟩).1 rfl,
    ((C10_start_guard_and_idempotent ⟨true, true⟩).2.2 rfl rfl).1⟩

/-- C3: the tier becomes `disabled` in one step, not through the gradual
downgrade path: at construction whenever the WebGL probe failed or reduced
motion is preferred, and at any live preference-change notification that
reports reduced motion on. -/
theorem C3_immediate_disable (ua : String) (w : ℚ) (webgl rm : Bool) (now : ℚ)
    (s : PMState) :
    ((webgl = false ∨ rm = true) →
      (PerformanceMonitor.init ua w webgl rm now).currentQuality = "disabled") ∧
    (PerformanceMonitor.onReducedMotionChange true s).currentQuality = "disabled" := by
  constructor
  · intro h
    unfold PerformanceMonitor.init PerformanceMonitor.setInitialQuality
    rcases h with h | h
    · subst h; simp
    · subst h; cases webgl <;> simp
  · unfold PerformanceMonitor.onReducedMotionChange
    simp

/-- Witness for C3: a desktop construction without WebGL is disabled, and a
reduced-motion-on notification disables a running high-tier monitor. -/
theorem C3_immediate_disable_witness :
    (PerformanceMonitor.init "Mozilla" 1280 false false 0).currentQuality = "disabled" ∧
    (PerformanceMonitor.onReducedMotionChange true
        ⟨"high", "desktop", true, false, [], 0, 0, 0, 0, 60, none⟩).currentQuality
      = "disabled" :=
  ⟨(C3_immediate_disable "Mozilla" 1280 false false 0
      ⟨"high", "desktop", true, false, [], 0, 0, 0, 0, 60, none⟩).1 (Or.inl rfl),
    (C3_immediate_disable "Mozilla" 1280 false false 0
      ⟨"high", "desktop", true, false, [], 0, 0, 0, 0, 60, none⟩).2⟩

/-- C6: `getQualitySettings` depends only on the current tier, and on the
four tiers it yields particles 2000 with shadows and anti-aliasing for
high, 1000 without shadows for medium, 500 with neither for low, and 0
with neither for disabled, a strictly decreasing particle count. -/
theorem C6_quality_settings (s t : PMState) :
    (s.currentQuality = t.currentQuality →
      PerformanceMonitor.getQualitySettings s = PerformanceMonitor.getQualitySettings t) ∧
    (s.currentQuality = "high" →
      PerformanceMonitor.getQualitySettings s = some ⟨2000, true, true⟩) ∧
    (s.currentQuality = "medium" →
      PerformanceMonitor.getQualitySettings s = some ⟨1000, false, true⟩) ∧
    (s.currentQuality = "low" →
      PerformanceMonitor.getQualitySettings s = some ⟨500, false, false⟩) ∧
    (s.currentQuality = "disabled" →
      PerformanceMonitor.getQualitySettings s = some ⟨0, false, false⟩) ∧
    ((2000 : Nat) > 1000 ∧ (1000 : Nat) > 500 ∧ (500 : Nat) > 0) := by
  refine ⟨?_, ?_, ?_, ?_, ?_, by norm_num⟩ <;> intro h <;>
    simp [PerformanceMonitor.getQualitySettings, PerformanceMonitor.qualityLevels, h]

/-- Witness for C6 at a concrete high-tier state. -/
theorem C6_quality_settings_witness :
    PerformanceMonitor.getQualitySettings
        ⟨"high", "desktop", true, false, [], 0, 0, 0, 0, 60, none⟩
      = some ⟨2000, true, true⟩ :=
  (C6_quality_settings ⟨"high", "desktop", true, false, [], 0, 0, 0, 0, 60, none⟩
    ⟨"high", "desktop", true, false, [], 0, 0, 0, 0, 60, none⟩).2.1 rfl

/-- C2 fails as stated: a session that includes a preference-change
notification clearing reduced motion can raise the tier.  From a desktop
construction, a reduced-motion-on notification disables the monitor, and
the following reduced-motion-off notification recomputes the tier back to
high, an increase in the order high > medium > low > disabled. -/
theorem C2_counterexample :
    (PerformanceMonitor.runEvents
        [PerformanceMonitor.PMEvent.motion true]
        (PerformanceMonitor.init "Mozilla" 1280 true false 0)).currentQuality
      = "disabled" ∧
    (PerformanceMonitor.runEvents
        [PerformanceMonitor.PMEvent.motion true, PerformanceMonitor.PMEvent.motion false]
        (PerformanceMonitor.init "Mozilla" 1280 true false 0)).currentQuality
      = "high" ∧
    PerformanceMonitor.qualityRank "disabled" < PerformanceMonitor.qualityRank "high" := by
  decide

/-- C2 amended: along every sequence of `updateMetrics` and
`checkPerformanceThreshold` steps and reduced-motion-on notifications, the
tier never increases; only a notification clearing reduced motion, which
recomputes the tier from the device classification, can raise it. -/
theorem C2_amended_no_auto_upgrade (evs : List PerformanceMonitor.PMEvent)
    (s : PMState) (hv : PerformanceMonitor.validQuality s.currentQuality)
    (hm : PerformanceMonitor.PMEvent.motion false ∉ evs) :
    PerformanceMonitor.qualityRank (PerformanceMonitor.runEvents evs s).currentQuality ≤
      PerformanceMonitor.qualityRank s.currentQuality := by
  induction evs generalizing s with
  | nil => exact le_refl _
  | cons e es ih =>
      have he : e ≠ .motion false := fun h => hm (h ▸ List.mem_cons_self e es)
      have h1 := PerformanceMonitor.PMStep_valid_mono e s hv he
      have h2 := ih (PerformanceMonitor.PMStep e s) h1.1
        (fun hmem => hm (List.mem_cons_of_mem e hmem))
      exact le_trans h2 h1.2

/-- Witness for the amended C2 on a concrete downgrading trace. -/
theorem C2_amended_no_auto_upgrade_witness :
    PerformanceMonitor.qualityRank
        (PerformanceMonitor.runEvents
          [PerformanceMonitor.PMEvent.check 3000, PerformanceMonitor.PMEvent.motion true]
          ⟨"high", "desktop", true, false, [30, 30, 30, 30, 30], 2, 0, 0, 0, 60, none⟩).currentQuality ≤
      PerformanceMonitor.qualityRank
        (⟨"high", "desktop", true, false, [30, 30, 30, 30, 30], 2, 0, 0, 0, 60, none⟩ :
          PMState).currentQuality :=
  C2_amended_no_auto_upgrade
    [PerformanceMonitor.PMEvent.check 3000, PerformanceMonitor.PMEvent.motion true]
    ⟨"high", "desktop", true, false, [30, 30, 30, 30, 30], 2, 0, 0, 0, 60, none⟩
    (Or.inl rfl) (by decide)

/-- C4 fails as stated: a reduced-motion-off notification does not always
recompute the tier from the device classification alone; with the WebGL
probe failed, a desktop monitor stays disabled instead of moving to high. -/
theorem C4_counterexample :
    (PerformanceMonitor.init "Mozilla" 1280 false false 0).currentQuality = "disabled" ∧
    (PerformanceMonitor.init "Mozilla" 1280 false false 0).deviceType = "desktop" ∧
    (PerformanceMonitor.onReducedMotionChange false
        (PerformanceMonitor.init "Mozilla" 1280 false false 0)).currentQuality
      = "disabled" ∧
    (PerformanceMonitor.onReducedMotionChange false
        (PerformanceMonitor.init "Mozilla" 1280 false false 0)).currentQuality
      ≠ "high" := by
  decide

/-- C4 amended: `disabled` is absorbing for the performance-check step
(neither `checkPerformanceThreshold` nor `updateMetrics` leaves it), and a
notification clearing reduced motion recomputes the tier through
`setInitialQuality`: still disabled without WebGL support, otherwise
mobile to low, tablet to medium, and desktop (the default case) to high. -/
theorem C4_amended_disabled_absorbing (s : PMState) (now : ℚ)
    (h : s.currentQuality = "disabled") :
    (PerformanceMonitor.checkPerformanceThreshold now s).currentQuality = "disabled" ∧
    (PerformanceMonitor.updateMetrics now s).currentQuality = "disabled" ∧
    ((PerformanceMonitor.onReducedMotionChange false s).currentQuality =
      if s.webGLSupported = false then "disabled"
      else if s.deviceType = "mobile" then "low"
      else if s.deviceType = "tablet" then "medium"
      else "high") := by
  refine ⟨?_, ?_, ?_⟩
  · rw [PerformanceMonitor.check_disabled now s h]
    exact h
  · have hmono := PerformanceMonitor.updateMetrics_quality_valid_mono now s
      (Or.inr (Or.inr (Or.inr h)))
    rcases hmono with ⟨hval, hle⟩
    rw [h] at hle
    rcases hval with h2 | h2 | h2 | h2 <;>
      simp [PerformanceMonitor.qualityRank, h2] at hle ⊢
  · unfold PerformanceMonitor.onReducedMotionChange PerformanceMonitor.setInitialQuality
    dsimp only
    split_ifs <;> simp_all

/-- Witness for the amended C4: a disabled desktop monitor with WebGL
support stays disabled under a check and returns to high when reduced
motion is cleared. -/
theorem C4_amended_disabled_absorbing_witness :
    (PerformanceMonitor.checkPerformanceThreshold 0
        ⟨"disabled", "desktop", true, false, [], 0, 0, 0, 0, 60, none⟩).currentQuality
      = "disabled" ∧
    (PerformanceMonitor.onReducedMotionChange false
        ⟨"disabled", "desktop", true, false, [], 0, 0, 0, 0, 60, none⟩).currentQuality
      = "high" := by
  have h := C4_amended_disabled_absorbing
    ⟨"disabled", "desktop", true, false, [], 0, 0, 0, 0, 60, none⟩ 0 rfl
  exact ⟨h.1, by simpa using h.2.2⟩

/-- C5 fails as stated: `setQuality` does not reject every argument outside
the four tiers.  A string naming a property inherited from
`Object.prototype`, such as `constructor`, makes the lookup
`this.qualityLevels[quality]` truthy, so the guard accepts it and the tier
leaves the four-value set. -/
theorem C5_counterexample :
    (PerformanceMonitor.setQuality "constructor"
        ⟨"high", "desktop", true, false, [], 0, 0, 0, 0, 60, none⟩).currentQuality
      = "constructor" ∧
    ¬ PerformanceMonitor.validQuality "constructor" := by
  unfold PerformanceMonitor.validQuality
  decide

/-- C5 amended: the tier is one of high, medium, low, disabled after
construction, and every operation preserves this, where `setQuality`
preserves it for every argument except the strings naming inherited
`Object.prototype` properties (those pass the truthiness guard although
they are outside the set; all other non-tier strings are rejected and
leave the tier unchanged). -/
theorem C5_amended_valid_invariant (s : PMState) (now : ℚ)
    (hv : PerformanceMonitor.validQuality s.currentQuality) :
    (∀ (ua : String) (w : ℚ) (webgl rm : Bool) (n0 : ℚ),
      PerformanceMonitor.validQuality
        (PerformanceMonitor.init ua w webgl rm n0).currentQuality) ∧
    PerformanceMonitor.validQuality
      (PerformanceMonitor.updateMetrics now s).currentQuality ∧
    PerformanceMonitor.validQuality
      (PerformanceMonitor.checkPerformanceThreshold now s).currentQuality ∧
    PerformanceMonitor.validQuality
      (PerformanceMonitor.reduceQuality s).currentQuality ∧
    (∀ m : Bool, PerformanceMonitor.validQuality
      (PerformanceMonitor.onReducedMotionChange m s).currentQuality) ∧
    (∀ q : String, q ∉ PerformanceMonitor.objectPrototypeProps →
      PerformanceMonitor.validQuality
        (PerformanceMonitor.setQuality q s).currentQuality) := by
  refine ⟨?_, (PerformanceMonitor.updateMetrics_quality_valid_mono now s hv).1,
    (PerformanceMonitor.check_quality_valid_mono now s hv).1, ?_, ?_, ?_⟩
  · intro ua w webgl rm n0
    exact PerformanceMonitor.setInitialQuality_valid _
  · rcases hv with h | h | h | h <;>
      simp [PerformanceMonitor.reduceQuality_eval, h, PerformanceMonitor.validQuality]
  · intro m
    cases m
    · have hval := PerformanceMonitor.setInitialQuality_valid
        { s with reducedMotionPreferred := false }
      simpa [PerformanceMonitor.onReducedMotionChange] using hval
    · simp [PerformanceMonitor.onReducedMotionChange, PerformanceMonitor.validQuality]
  · intro q hq
    by_cases h1 : q = "disabled"
    · simp [PerformanceMonitor.setQuality, h1, PerformanceMonitor.validQuality]
    · by_cases h2 : q = "high"
      · simp [PerformanceMonitor.setQuality, PerformanceMonitor.qualityLevels,
          h1, h2, PerformanceMonitor.validQuality]
      · by_cases h3 : q = "medium"
        · simp [PerformanceMonitor.setQuality, PerformanceMonitor.qualityLevels,
            h1, h2, h3, PerformanceMonitor.validQuality]
        · by_cases h4 : q = "low"
          · simp [PerformanceMonitor.setQuality, PerformanceMonitor.qualityLevels,
              h1, h2, h3, h4, PerformanceMonitor.validQuality]
          · have hs : PerformanceMonitor.setQuality q s = s := by
              unfold PerformanceMonitor.setQuality PerformanceMonitor.qualityLevels
              simp [h1, h2, h3, h4, hq]
            rw [hs]
            exact hv

/-- C1: from a high or medium tier, a per-second check is skipped whole
while less than two seconds (2000 ms) have passed since the last
adjustment; the tier changes at a check exactly when the check is not
skipped, at least five FPS samples exist, the rolling average of the last
five samples is below the threshold of 80 percent of the device target
FPS, and two consecutive warnings are already pending (so the triggering
check is the third consecutive one below threshold); the change is exactly
one step down the order high, medium, low; a below-threshold check short
of the third increments the warning counter and changes nothing else; an
at-or-above-threshold check resets the counter; and from a clean counter,
three eligible below-threshold checks leave the tier unchanged twice and
downgrade it one step at the third. -/
theorem C1_downgrade_exactly (s : PMState) (now t1 t2 t3 : ℚ)
    (hq : s.currentQuality = "high" ∨ s.currentQuality = "medium") :
    (now - s.lastQualityAdjustment < PerformanceMonitor.qualityAdjustmentDelay →
      PerformanceMonitor.checkPerformanceThreshold now s = s) ∧
    ((PerformanceMonitor.checkPerformanceThreshold now s).currentQuality ≠
        s.currentQuality ↔
      (PerformanceMonitor.qualityAdjustmentDelay ≤ now - s.lastQualityAdjustment ∧
        5 ≤ s.fpsHistory.length ∧
        PerformanceMonitor.averageFPSOf s < PerformanceMonitor.thresholdOf s ∧
        2 ≤ s.performanceWarningCount)) ∧
    (PerformanceMonitor.qualityAdjustmentDelay ≤ now - s.lastQualityAdjustment →
      5 ≤ s.fpsHistory.length →
      PerformanceMonitor.averageFPSOf s < PerformanceMonitor.thresholdOf s →
      2 ≤ s.performanceWarningCount →
      ((PerformanceMonitor.checkPerformanceThreshold now s).currentQuality =
          PerformanceMonitor.nextLowerQuality s.currentQuality ∧
        (PerformanceMonitor.checkPerformanceThreshold now s).performanceWarningCount = 0 ∧
        (PerformanceMonitor.checkPerformanceThreshold now s).lastQualityAdjustment = now)) ∧
    (PerformanceMonitor.qualityAdjustmentDelay ≤ now - s.lastQualityAdjustment →
      5 ≤ s.fpsHistory.length →
      PerformanceMonitor.averageFPSOf s < PerformanceMonitor.thresholdOf s →
      s.performanceWarningCount < 2 →
      PerformanceMonitor.checkPerformanceThreshold now s =
        { s with performanceWarningCount := s.performanceWarningCount + 1 }) ∧
    (PerformanceMonitor.qualityAdjustmentDelay ≤ now - s.lastQualityAdjustment →
      5 ≤ s.fpsHistory.length →
      PerformanceMonitor.thresholdOf s ≤ PerformanceMonitor.averageFPSOf s →
      PerformanceMonitor.checkPerformanceThreshold now s =
        { s with performanceWarningCount := 0 }) ∧
    (5 ≤ s.fpsHistory.length → (PerformanceMonitor.recentFPSOf s).length = 5) ∧
    (PerformanceMonitor.qualityAdjustmentDelay = 2000 ∧
      PerformanceMonitor.thresholdOf s =
        PerformanceMonitor.targetFPSFor s.deviceType * (8 / 10)) ∧
    (s.performanceWarningCount = 0 →
      PerformanceMonitor.qualityAdjustmentDelay ≤ t1 - s.lastQualityAdjustment →
      PerformanceMonitor.qualityAdjustmentDelay ≤ t2 - s.lastQualityAdjustment →
      PerformanceMonitor.qualityAdjustmentDelay ≤ t3 - s.lastQualityAdjustment →
      5 ≤ s.fpsHistory.length →
      PerformanceMonitor.averageFPSOf s < PerformanceMonitor.thresholdOf s →
      ((PerformanceMonitor.checkPerformanceThreshold t1 s).currentQuality =
          s.currentQuality ∧
        (PerformanceMonitor.checkPerformanceThreshold t2
            (PerformanceMonitor.checkPerformanceThreshold t1 s)).currentQuality =
          s.currentQuality ∧
        (PerformanceMonitor.checkPerformanceThreshold t3
            (PerformanceMonitor.checkPerformanceThreshold t2
              (PerformanceMonitor.checkPerformanceThreshold t1 s))).currentQuality =
          PerformanceMonitor.nextLowerQuality s.currentQuality)) := by
  have hguard : ¬(s.currentQuality = "disabled" ∨ s.currentQuality = "low") := by
    rcases hq with h | h <;> rw [h] <;> decide
  refine ⟨?_, ⟨?_, ?_⟩, ?_, ?_, ?_, ?_, ⟨rfl, rfl⟩, ?_⟩
  · intro hlt
    rw [PerformanceMonitor.check_eval now s hguard, if_pos hlt]
  · intro hne
    by_cases hA : now - s.lastQualityAdjustment < PerformanceMonitor.qualityAdjustmentDelay
    · rw [PerformanceMonitor.check_eval now s hguard, if_pos hA] at hne
      exact absurd rfl hne
    · by_cases hB : 5 ≤ s.fpsHistory.length
      · by_cases hC : PerformanceMonitor.averageFPSOf s < PerformanceMonitor.thresholdOf s
        · by_cases hD : 3 ≤ s.performanceWarningCount + 1
          · exact ⟨not_lt.mp hA, hB, hC, by omega⟩
          · rw [PerformanceMonitor.check_eval now s hguard, if_neg hA, if_pos hB,
              if_pos hC, if_neg hD] at hne
            exact absurd rfl hne
        · rw [PerformanceMonitor.check_eval now s hguard, if_neg hA, if_pos hB,
            if_neg hC] at hne
          exact absurd rfl hne
      · rw [PerformanceMonitor.check_eval now s hguard, if_neg hA, if_neg hB] at hne
        exact absurd rfl hne
  · rintro ⟨hA, hB, hC, hD⟩
    rw [PerformanceMonitor.check_eval now s hguard, if_neg (not_lt.mpr hA), if_pos hB,
      if_pos hC, if_pos (by omega)]
    rcases hq with h | h <;>
      simp [PerformanceMonitor.reduceQuality_eval, h]
  · intro hA hB hC hD
    rw [PerformanceMonitor.check_eval now s hguard, if_neg (not_lt.mpr hA), if_pos hB,
      if_pos hC, if_pos (by omega)]
    refine ⟨?_, rfl, rfl⟩
    rcases hq with h | h <;>
      simp [PerformanceMonitor.reduceQuality_eval, h, PerformanceMonitor.nextLowerQuality]
  · intro hA hB hC hD
    rw [PerformanceMonitor.check_eval now s hguard, if_neg (not_lt.mpr hA), if_pos hB,
      if_pos hC, if_neg (by omega)]
  · intro hA hB hC
    rw [PerformanceMonitor.check_eval now s hguard, if_neg (not_lt.mpr hA), if_pos hB,
      if_neg (not_lt.mpr hC)]
  · intro hB
    simp only [PerformanceMonitor.recentFPSOf, List.length_drop]
    omega
  · intro hcount0 hA1 hA2 hA3 hB hC
    have hs1 : PerformanceMonitor.checkPerformanceThreshold t1 s =
        { s with performanceWarningCount := s.performanceWarningCount + 1 } :=
      PerformanceMonitor.check_incr t1 s hguard hA1 hB hC (by omega)
    have hs2 : PerformanceMonitor.checkPerformanceThreshold t2
        ({ s with performanceWarningCount := s.performanceWarningCount + 1 }) =
        { s with performanceWarningCount := s.performanceWarningCount + 1 + 1 } :=
      PerformanceMonitor.check_incr t2
        { s with performanceWarningCount := s.performanceWarningCount + 1 }
        hguard hA2 hB hC
        (show s.performanceWarningCount + 1 + 1 < 3 by omega)
    have hs3 : PerformanceMonitor.checkPerformanceThreshold t3
        ({ s with performanceWarningCount := s.performanceWarningCount + 1 + 1 }) =
        { PerformanceMonitor.reduceQuality
            { s with performanceWarningCount := s.performanceWarningCount + 1 + 1 + 1 } with
          performanceWarningCount := 0, lastQualityAdjustment := t3 } :=
      PerformanceMonitor.check_fire t3
        { s with performanceWarningCount := s.performanceWarningCount + 1 + 1 }
        hguard hA3 hB hC
        (show 3 ≤ s.performanceWarningCount + 1 + 1 + 1 by omega)
    rw [hs1, hs2]
    refine ⟨rfl, rfl, ?_⟩
    rw [hs3]
    rcases hq with h | h <;>
      simp [PerformanceMonitor.reduceQuality_eval, h, PerformanceMonitor.nextLowerQuality]

/-- Witness for C1: a desktop monitor at high tier with five samples of 30
FPS (threshold 48), two pending warnings and an expired cool-down
downgrades to medium at the next check, and the same monitor inside the
cool-down window is left untouched. -/
theorem C1_downgrade_exactly_witness :
    (PerformanceMonitor.checkPerformanceThreshold 3000
        ⟨"high", "desktop", true, false, [30, 30, 30, 30, 30], 2, 0, 0, 0, 60, none⟩).currentQuality
      = "medium" ∧
    PerformanceMonitor.checkPerformanceThreshold 1000
        ⟨"high", "desktop", true, false, [30, 30, 30, 30, 30], 2, 0, 0, 0, 60, none⟩
      = ⟨"high", "desktop", true, false, [30, 30, 30, 30, 30], 2, 0, 0, 0, 60, none⟩ := by
  have h := C1_downgrade_exactly
    ⟨"high", "desktop", true, false, [30, 30, 30, 30, 30], 2, 0, 0, 0, 60, none⟩
    3000 0 0 0 (Or.inl rfl)
  have h2 := C1_downgrade_exactly
    ⟨"high", "desktop", true, false, [30, 30, 30, 30, 30], 2, 0, 0, 0, 60, none⟩
    1000 0 0 0 (Or.inl rfl)
  refine ⟨?_, h2.1 (by norm_num [PerformanceMonitor.qualityAdjustmentDelay])⟩
  have h3 := h.2.2.1 (by norm_num [PerformanceMonitor.qualityAdjustmentDelay])
    (by norm_num)
    (by norm_num [PerformanceMonitor.averageFPSOf, PerformanceMonitor.recentFPSOf,
      PerformanceMonitor.thresholdOf, PerformanceMonitor.targetFPSFor,
      PerformanceMonitor.performanceThreshold])
    (by norm_num)
  exact h3.1

/-- Witness for the amended C5: a non-tier, non-prototype string is
rejected and the high tier survives. -/
theorem C5_amended_valid_invariant_witness :
    PerformanceMonitor.validQuality
      (PerformanceMonitor.setQuality "garbage"
        ⟨"high", "desktop", true, false, [], 0, 0, 0, 0, 60, none⟩).currentQuality :=
  (C5_amended_valid_invariant ⟨"high", "desktop", true, false, [], 0, 0, 0, 0, 60, none⟩ 0
    (Or.inl rfl)).2.2.2.2.2 "garbage" (by decide)

/-- C8 fails as stated: a particle at the origin with zero velocity is
producible by `createParticleData` (all random draws equal to one half)
while `mousePosition` still holds its constructor value (0, 0); there the
repulsion branch fires (distance 0 < 3) with a zero divisor, and the JS
assignment `dx / distance` is 0/0, a NaN, modeled by the `none` outcome. -/
theorem C8_counterexample :
    ParticleSystem.particleInitState (3 / 1000) 0 0 0 0 0 0 0 0 ∧
    Real.sqrt (((0 : ℝ) + 0 - 0 * 10) * (0 + 0 - 0 * 10) +
        (0 + 0 - 0 * 10) * (0 + 0 - 0 * 10)) = 0 ∧
    Real.sqrt (((0 : ℝ) + 0 - 0 * 10) * (0 + 0 - 0 * 10) +
        (0 + 0 - 0 * 10) * (0 + 0 - 0 * 10)) < 3 ∧
    ParticleSystem.particleStepRel (1 / 10) 0 0 0 0 0 0 0 0 none := by
  have harg : (((0 : ℝ) + 0 - 0 * 10) * (0 + 0 - 0 * 10) +
      (0 + 0 - 0 * 10) * (0 + 0 - 0 * 10)) = 0 := by norm_num
  have hsqrt : Real.sqrt (((0 : ℝ) + 0 - 0 * 10) * (0 + 0 - 0 * 10) +
      (0 + 0 - 0 * 10) * (0 + 0 - 0 * 10)) = 0 := by
    rw [harg, Real.sqrt_zero]
  have h3 : Real.sqrt (((0 : ℝ) + 0 - 0 * 10) * (0 + 0 - 0 * 10) +
      (0 + 0 - 0 * 10) * (0 + 0 - 0 * 10)) < 3 := by
    rw [hsqrt]; norm_num
  refine ⟨⟨⟨1 / 2, 1 / 2, 1 / 2, 1 / 2, 1 / 2, 1 / 2, by norm_num⟩, rfl, rfl⟩,
    hsqrt, h3, Or.inl ⟨h3, hsqrt, rfl⟩⟩

/-- C8 amended: whenever the particle, after its velocity step, is not
exactly at the scaled mouse point, the Euclidean distance divisor is
nonzero and every outcome the update relation admits is a defined finite
position, never the NaN outcome; only the exact-coincidence state reaches
the zero divisor. -/
theorem C8_amended_divisor_nonzero (mouseInfluence mx my px py pz vx vy vz : ℝ)
    (h : ¬(px + vx - mx * 10 = 0 ∧ py + vy - my * 10 = 0)) :
    Real.sqrt ((px + vx - mx * 10) * (px + vx - mx * 10) +
        (py + vy - my * 10) * (py + vy - my * 10)) ≠ 0 ∧
    ∀ out, ParticleSystem.particleStepRel mouseInfluence mx my px py pz vx vy vz out →
      out ≠ none := by
  have hpos : 0 < (px + vx - mx * 10) * (px + vx - mx * 10) +
      (py + vy - my * 10) * (py + vy - my * 10) := by
    rcases not_and_or.mp h with h1 | h1
    · nlinarith [mul_self_pos.mpr h1, mul_self_nonneg (py + vy - my * 10)]
    · nlinarith [mul_self_pos.mpr h1, mul_self_nonneg (px + vx - mx * 10)]
  have hs : Real.sqrt ((px + vx - mx * 10) * (px + vx - mx * 10) +
      (py + vy - my * 10) * (py + vy - my * 10)) ≠ 0 :=
    ne_of_gt (Real.sqrt_pos.mpr hpos)
  refine ⟨hs, ?_⟩
  intro out hrel
  rcases hrel with ⟨_, habs, _⟩ | ⟨_, _, x3, y3, z3, _, _, _, hout⟩ |
    ⟨_, x3, y3, z3, _, _, _, hout⟩
  · exact absurd habs hs
  · rw [hout]; simp
  · rw [hout]; simp

/-- Witness for the amended C8 at a particle five units right of the mouse
point. -/
theorem C8_amended_divisor_nonzero_witness :
    Real.sqrt (((5 : ℝ) + 0 - 0 * 10) * (5 + 0 - 0 * 10) +
        (0 + 0 - 0 * 10) * (0 + 0 - 0 * 10)) ≠ 0 ∧
    ∀ out, ParticleSystem.particleStepRel (1 / 10) 0 0 5 0 0 0 0 0 out → out ≠ none :=
  C8_amended_divisor_nonzero (1 / 10) 0 0 5 0 0 0 0 0 (by norm_num)

/-- C9 failing input: a particle at the origin with zero velocity and the
mouse at its initial (0, 0) position has finite coordinates, yet the only
outcome the update relation admits is the NaN outcome `none`: the x and y
assignments are 0/0 and the boundary wrap leaves a NaN in place, so the
wrapped bounds do not hold after this update, contradicting the boundary
property asserted by the repository particle test. -/
theorem C9_failing_input :
    ParticleSystem.particleStepRel (1 / 10) 0 0 0 0 0 0 0 0 none ∧
    ∀ out, ParticleSystem.particleStepRel (1 / 10) 0 0 0 0 0 0 0 0 out → out = none := by
  have harg : (((0 : ℝ) + 0 - 0 * 10) * (0 + 0 - 0 * 10) +
      (0 + 0 - 0 * 10) * (0 + 0 - 0 * 10)) = 0 := by norm_num
  have hsqrt : Real.sqrt (((0 : ℝ) + 0 - 0 * 10) * (0 + 0 - 0 * 10) +
      (0 + 0 - 0 * 10) * (0 + 0 - 0 * 10)) = 0 := by
    rw [harg, Real.sqrt_zero]
  have h3 : Real.sqrt (((0 : ℝ) + 0 - 0 * 10) * (0 + 0 - 0 * 10) +
      (0 + 0 - 0 * 10) * (0 + 0 - 0 * 10)) < 3 := by
    rw [hsqrt]; norm_num
  constructor
  · exact Or.inl ⟨h3, hsqrt, rfl⟩
  · intro out hrel
    rcases hrel with ⟨_, _, hout⟩ | ⟨_, hne, _⟩ | ⟨hlt, _⟩
    · exact hout
    · exact absurd hsqrt hne
    · exact absurd h3 hlt

end Portfolio
